import Mathlib

/-!
Shallow embedding of `src/Main/rh_memory.hpp` (RAII-WINAPI-Memory-Manager).

The repository is a single header defining `HandleDisposer`, the
`SafeMemory_Access` flags, and the class `SafeMemory` with three
constructors, process/window resolution, handle acquisition, module
enumeration, and templated cross-process read/write.

The Win32 API surface the header calls (Toolhelp snapshots, `FindWindowA`,
`GetWindowThreadProcessId`, `OpenProcess`, `ReadProcessMemory`,
`WriteProcessMemory`) is modelled by an explicit environment `Win32Env`
plus a byte-addressed target-memory world `TargetMemory`. Handles are
naturals (`0` = `nullptr`); `INVALID_HANDLE_VALUE` is the integer `-1`
where signedness matters (the disposer guard). Exceptions thrown by the
constructors are modelled with `Except CtorError`. Calls to `OpenProcess`
are recorded in an event trace so that "no OS handle was ever opened" is
statable.
-/

/-- Access flag values from `<Windows.h>`: `PROCESS_ALL_ACCESS` (0x1FFFFF on
modern SDKs), `PROCESS_VM_READ` (0x10), `PROCESS_VM_WRITE` (0x20). -/
def PROCESS_ALL_ACCESS : Nat := 2097151

def PROCESS_VM_READ : Nat := 16

def PROCESS_VM_WRITE : Nat := 32

/-- Values of `enum SafeMemory_Access : DWORD` (rh_memory.hpp lines 38-43). -/
def SafeMemory_AllAccess : Nat := PROCESS_ALL_ACCESS

def SafeMemory_ReadAccess : Nat := PROCESS_VM_READ

def SafeMemory_WriteAccess : Nat := PROCESS_VM_WRITE

/-- One `PROCESSENTRY32` record as the code consumes it: the executable file
name `szExeFile` and the process id `th32ProcessID`. -/
structure ProcEntry where
  szExeFile : String
  th32ProcessID : Nat
  deriving Repr, DecidableEq

/-- One `MODULEENTRY32` record as the code consumes it: the module file name
`szModule` and the base load address `modBaseAddr`. -/
structure ModEntry where
  szModule : String
  modBaseAddr : Nat
  deriving Repr, DecidableEq

/-- The Win32 API surface `rh_memory.hpp` calls, as a deterministic
environment. `processSnapshotOk = false` means
`CreateToolhelp32Snapshot(TH32CS_SNAPPROCESS, 0)` returns
`INVALID_HANDLE_VALUE`; `processes` is the snapshot content in OS
enumeration order (`Process32First` yields the head, `Process32Next` the
tail). `moduleSnapshotOk`/`modules` play the same role per process id for
`TH32CS_SNAPMODULE`. `findWindowA` returns the `HWND` (0 = `nullptr`);
`getWindowThreadProcessId` returns (thread id, out-parameter process id),
thread id 0 meaning failure. `openProcess pid flags` returns the `HANDLE`
(0 = `nullptr` = failure). -/
structure Win32Env where
  processSnapshotOk : Bool
  processes : List ProcEntry
  moduleSnapshotOk : Nat → Bool
  modules : Nat → List ModEntry
  findWindowA : String → Nat
  getWindowThreadProcessId : Nat → Nat × Nat
  openProcess : Nat → Nat → Nat

/-- The two data members of `class SafeMemory` (rh_memory.hpp lines 87-88):
`std::optional<unique_handle> m_processHandle` and
`std::optional<std::uint32_t> m_processID`. -/
structure SafeMemoryState where
  m_processHandle : Option Nat
  m_processID : Option Nat
  deriving Repr, DecidableEq

/-- Member-wise default initialization of a `SafeMemory` object before the
constructor body runs: both optionals are empty. -/
def initState : SafeMemoryState := ⟨none, none⟩

/-- The exceptions a `SafeMemory` constructor can throw:
`invalidProcess` is `std::exception("Failed to open a handle to the
specified process")`; `badOptionalAccess` is the `std::bad_optional_access`
raised by `process_id.value()` on an empty optional. -/
inductive CtorError where
  | invalidProcess
  | badOptionalAccess
  deriving Repr, DecidableEq

/-- First process entry whose `szExeFile` equals `process_name` (exact,
case-sensitive `==` of `std::string_view` against the entry), scanning the
given list in order. This is the comparison loop body shared by the
embedding and by the enumeration-order analysis. -/
def findFirstProcess (process_name : String) : List ProcEntry → Option Nat
  | [] => none
  | e :: rest =>
    if process_name == e.szExeFile then some e.th32ProcessID
    else findFirstProcess process_name rest

/-- Embedding of `SafeMemory::AcquireProcessID` (rh_memory.hpp lines
91-109). If the snapshot is `INVALID_HANDLE_VALUE`, return `nullopt`.
`Process32First` succeeds exactly on a nonempty snapshot and fills the
FIRST entry, whose name is never compared; the `while (Process32Next...)`
loop then compares entries 2..n in order. -/
def AcquireProcessID (env : Win32Env) (process_name : String) : Option Nat :=
  if env.processSnapshotOk = false then none
  else
    match env.processes with
    | [] => none
    | _first :: rest => findFirstProcess process_name rest

/-- Embedding of `SafeMemory::AcquireProcessIDByWindowName` (rh_memory.hpp
lines 112-125): `FindWindowA(0, window_name)`, `nullptr` check,
`GetWindowThreadProcessId` with a zero-return check, then the out-parameter
process id. -/
def AcquireProcessIDByWindowName (env : Win32Env) (window_name : String) : Option Nat :=
  let window_handle := env.findWindowA window_name
  if window_handle = 0 then none
  else
    let r := env.getWindowThreadProcessId window_handle
    if r.1 = 0 then none
    else some r.2

/-- Embedding of `SafeMemory::CreateProcessHandle` (rh_memory.hpp lines
140-149): `OpenProcess(processFlags, false, process_id)` wrapped in a
`unique_handle`, `nullptr` check, ownership returned. -/
def CreateProcessHandle (env : Win32Env) (process_id : Nat) (processFlags : Nat) : Option Nat :=
  let processhandle := env.openProcess process_id processFlags
  if processhandle = 0 then none else some processhandle

/-- Embedding of `SafeMemory::AcquireProcessHandle` (rh_memory.hpp lines
127-138). Returns (boolean result, updated object state, trace of
`OpenProcess` invocations as (pid, flags) pairs). An empty optional returns
`false` before any `OpenProcess` call; otherwise `m_processHandle` is
assigned the `CreateProcessHandle` result and its `has_value()` decides
the boolean. -/
def AcquireProcessHandle (env : Win32Env) (st : SafeMemoryState)
    (process_id : Option Nat) (processFlags : Nat) :
    Bool × SafeMemoryState × List (Nat × Nat) :=
  match process_id with
  | none => (false, st, [])
  | some pid =>
    let h := CreateProcessHandle env pid processFlags
    let st2 := { st with m_processHandle := h }
    match h with
    | none => (false, st2, [(pid, processFlags)])
    | some _ => (true, st2, [(pid, processFlags)])

/-- Embedding of the process-name constructor `SafeMemory(std::string_view,
SafeMemory_Access)` (rh_memory.hpp lines 49-58). `process_id.value()` on an
empty optional throws `std::bad_optional_access` before
`AcquireProcessHandle` is entered; a `false` return from
`AcquireProcessHandle` throws the "Failed to open a handle" exception;
otherwise `m_processID` is assigned and construction succeeds. -/
def SafeMemory_mk_byName (env : Win32Env) (process_name : String) (processFlags : Nat) :
    Except CtorError Unit × SafeMemoryState × List (Nat × Nat) :=
  let process_id := AcquireProcessID env process_name
  match process_id with
  | none => (Except.error CtorError.badOptionalAccess, initState, [])
  | some pid =>
    match AcquireProcessHandle env initState (some pid) processFlags with
    | (false, st1, tr) => (Except.error CtorError.invalidProcess, st1, tr)
    | (true, st1, tr) => (Except.ok (), { st1 with m_processID := some pid }, tr)

/-- Embedding of the window-name constructor `SafeMemory(const std::string&,
SafeMemory_Access, bool min_window)` (rh_memory.hpp lines 60-69). The body
is identical to the name constructor except that resolution goes through
`AcquireProcessIDByWindowName`; the `min_window` parameter is accepted and
never read. -/
def SafeMemory_mk_byWindow (env : Win32Env) (window_name : String) (processFlags : Nat)
    (min_window : Bool) :
    Except CtorError Unit × SafeMemoryState × List (Nat × Nat) :=
  let process_id := AcquireProcessIDByWindowName env window_name
  match process_id with
  | none => (Except.error CtorError.badOptionalAccess, initState, [])
  | some pid =>
    match AcquireProcessHandle env initState (some pid) processFlags with
    | (false, st1, tr) => (Except.error CtorError.invalidProcess, st1, tr)
    | (true, st1, tr) => (Except.ok (), { st1 with m_processID := some pid }, tr)

/-- Embedding of the process-id constructor
`SafeMemory(const std::optional<std::uint32_t>&, SafeMemory_Access)`
(rh_memory.hpp lines 71-77): the optional goes straight to
`AcquireProcessHandle`, whose `has_value()` guard handles emptiness. -/
def SafeMemory_mk_byPid (env : Win32Env) (process_id : Option Nat) (processFlags : Nat) :
    Except CtorError Unit × SafeMemoryState × List (Nat × Nat) :=
  match AcquireProcessHandle env initState process_id processFlags with
  | (false, st1, tr) => (Except.error CtorError.invalidProcess, st1, tr)
  | (true, st1, tr) => (Except.ok (), { st1 with m_processID := process_id }, tr)

/-- First module entry whose `szModule` equals `module_name` (exact,
case-sensitive), scanning the given list in order. -/
def findFirstModule (module_name : String) : List ModEntry → Option Nat
  | [] => none
  | e :: rest =>
    if module_name == e.szModule then some e.modBaseAddr
    else findFirstModule module_name rest

/-- Embedding of `SafeMemory::GetModuleBaseAddress` (rh_memory.hpp lines
151-173). Empty `m_processID` returns `nullopt`; an
`INVALID_HANDLE_VALUE` module snapshot returns `nullopt`; `Module32First`
succeeds exactly on a nonempty snapshot and fills the FIRST module, whose
name is never compared; the `while (Module32Next...)` loop compares
modules 2..n in order. The method is `const`: the returned state is the
object state after the call. -/
def GetModuleBaseAddress (env : Win32Env) (st : SafeMemoryState) (module_name : String) :
    Option Nat × SafeMemoryState :=
  match st.m_processID with
  | none => (none, st)
  | some pid =>
    if env.moduleSnapshotOk pid = false then (none, st)
    else
      match env.modules pid with
      | [] => (none, st)
      | _first :: rest => (findFirstModule module_name rest, st)

/-- Byte-addressed target-process memory world for `ReadProcessMemory` /
`WriteProcessMemory`: which addresses the handle may read or write (the OS
page protections combined with the handle's access rights), and the byte
content. -/
structure TargetMemory where
  readable : Nat → Bool
  writable : Nat → Bool
  mem : Nat → Nat

/-- Modelled OS semantics of `ReadProcessMemory(handle, addr, buf, size, 0)`:
the call either transfers all `size` bytes and returns nonzero, or touches
an inaccessible byte, transfers nothing usable, and returns zero (`none`). -/
def osReadBytes (w : TargetMemory) (addr : Nat) : Nat → Option (List Nat)
  | 0 => some []
  | n + 1 =>
    if w.readable addr then
      match osReadBytes w (addr + 1) n with
      | some bs => some (w.mem addr :: bs)
      | none => none
    else none

/-- Modelled OS semantics of `WriteProcessMemory(handle, addr, buf, size, 0)`:
all bytes land, in address order, or the call fails and returns zero
(`none`). -/
def osWriteBytes (w : TargetMemory) (addr : Nat) : List Nat → Option TargetMemory
  | [] => some w
  | b :: bs =>
    if w.writable addr then
      osWriteBytes { w with mem := fun a => if a = addr then b else w.mem a } (addr + 1) bs
    else none

/-- Embedding of `SafeMemory::SafeReadMemory<T>` (rh_memory.hpp lines
176-188), at the byte level: `size` plays `sizeof(T)` and the result is the
raw `sizeof(T)`-byte buffer. Empty `m_processHandle` returns `nullopt`; a
zero return from `ReadProcessMemory` returns `nullopt`; otherwise the value
read. The method is `const`: the returned state is the object state after
the call. -/
def SafeReadMemory (st : SafeMemoryState) (w : TargetMemory) (address_ptr : Nat) (size : Nat) :
    Option (List Nat) × SafeMemoryState :=
  match st.m_processHandle with
  | none => (none, st)
  | some _ =>
    match osReadBytes w address_ptr size with
    | none => (none, st)
    | some bs => (some bs, st)

/-- Embedding of `SafeMemory::SafeWriteMemory<T>` (rh_memory.hpp lines
189-199), at the byte level: `bytes` is the object representation of the
value, of length `sizeof(T)`. Empty `m_processHandle` returns `false`; a
zero return from `WriteProcessMemory` returns `false`; otherwise `true`.
The result carries the target memory after the call and the (`const`)
object state after the call. -/
def SafeWriteMemory (st : SafeMemoryState) (w : TargetMemory) (address_ptr : Nat)
    (bytes : List Nat) : Bool × TargetMemory × SafeMemoryState :=
  match st.m_processHandle with
  | none => (false, w, st)
  | some _ =>
    match osWriteBytes w address_ptr bytes with
    | none => (false, w, st)
    | some w2 => (true, w2, st)

/-- Value of `INVALID_HANDLE_VALUE`, i.e. `(HANDLE)-1`, with handles viewed
as signed machine words for the disposer's comparisons. -/
def INVALID_HANDLE_VALUE : Int := -1

/-- The condition of `HandleDisposer::operator()` (rh_memory.hpp line 25):
`handle != INVALID_HANDLE_VALUE || handle != nullptr`. -/
def HandleDisposer_guard (handle : Int) : Bool :=
  (handle != INVALID_HANDLE_VALUE) || (handle != 0)

/-- Whether `HandleDisposer::operator()` invokes `CloseHandle` on `handle`
(rh_memory.hpp lines 22-29): exactly when its guard holds. -/
def HandleDisposer_invokesCloseHandle (handle : Int) : Bool :=
  if HandleDisposer_guard handle then true else false

/-- An environment whose every Win32 call fails or returns nothing. -/
def emptyEnv : Win32Env where
  processSnapshotOk := true
  processes := []
  moduleSnapshotOk := fun _ => true
  modules := fun _ => []
  findWindowA := fun _ => 0
  getWindowThreadProcessId := fun _ => (0, 0)
  openProcess := fun _ _ => 0

/-- A successful modelled read transfers exactly the requested number of
bytes. -/
theorem osReadBytes_length (size : Nat) : ∀ (w : TargetMemory) (addr : Nat) (bs : List Nat),
    osReadBytes w addr size = some bs → bs.length = size := by
  induction size with
  | zero =>
    intro w addr bs h
    simp [osReadBytes] at h
    simp [← h]
  | succ n ih =>
    intro w addr bs h
    unfold osReadBytes at h
    by_cases hr : w.readable addr = true
    · simp [hr] at h
      cases hrec : osReadBytes w (addr + 1) n with
      | none => rw [hrec] at h; simp at h
      | some tl =>
        rw [hrec] at h
        simp at h
        have := ih w (addr + 1) tl hrec
        simp [← h, this]
    · simp [hr] at h

/-- A successful modelled write never changes which addresses are
readable. -/
theorem osWriteBytes_readable (bs : List Nat) : ∀ (w w2 : TargetMemory) (addr : Nat),
    osWriteBytes w addr bs = some w2 → w2.readable = w.readable := by
  induction bs with
  | nil =>
    intro w w2 addr h
    simp [osWriteBytes] at h
    rw [← h]
  | cons b rest ih =>
    intro w w2 addr h
    unfold osWriteBytes at h
    by_cases hw : w.writable addr = true
    · simp [hw] at h
      have := ih _ _ _ h
      exact this
    · simp [hw] at h

/-- A successful modelled write leaves every byte below the write cursor
untouched. -/
theorem osWriteBytes_mem_lt (bs : List Nat) : ∀ (w w2 : TargetMemory) (addr : Nat),
    osWriteBytes w addr bs = some w2 → ∀ a, a < addr → w2.mem a = w.mem a := by
  induction bs with
  | nil =>
    intro w w2 addr h a _
    simp [osWriteBytes] at h
    rw [← h]
  | cons b rest ih =>
    intro w w2 addr h a ha
    unfold osWriteBytes at h
    by_cases hw : w.writable addr = true
    · simp [hw] at h
      have hrec := ih _ _ _ h
      have := hrec a (by omega)
      rw [this]
      have hne : ¬ a = addr := by omega
      simp [hne]
    · simp [hw] at h

/-- Reading back the exact range of a successful modelled write returns the
written bytes, provided the range is readable. -/
theorem osWriteBytes_readBack (bs : List Nat) : ∀ (w w2 : TargetMemory) (addr : Nat),
    osWriteBytes w addr bs = some w2 →
    (∀ i, i < bs.length → w.readable (addr + i) = true) →
    osReadBytes w2 addr bs.length = some bs := by
  induction bs with
  | nil =>
    intro w w2 addr _ _
    simp [osReadBytes]
  | cons b rest ih =>
    intro w w2 addr h hr
    unfold osWriteBytes at h
    by_cases hw : w.writable addr = true
    · simp [hw] at h
      have hreadpres : w2.readable = w.readable := by
        have := osWriteBytes_readable rest _ _ _ h
        exact this
      have hrest : osReadBytes w2 (addr + 1) rest.length = some rest := by
        apply ih _ _ _ h
        intro i hi
        have := hr (i + 1) (by simp; omega)
        have harith : addr + (i + 1) = addr + 1 + i := by omega
        rw [harith] at this
        exact this
      have hmema : w2.mem addr = b := by
        have hlt := osWriteBytes_mem_lt rest _ _ _ h
        have := hlt addr (by omega)
        simp at this
        exact this
      have hra : w2.readable addr = true := by
        rw [hreadpres]
        have := hr 0 (by simp)
        simpa using this
      show osReadBytes w2 addr (rest.length + 1) = some (b :: rest)
      unfold osReadBytes
      simp [hra, hrest, hmema]
    · simp [hw] at h

/-- Scanning a list with no matching name yields no process id. -/
theorem findFirstProcess_eq_none (process_name : String) :
    ∀ l : List ProcEntry, (∀ e ∈ l, (process_name == e.szExeFile) = false) →
    findFirstProcess process_name l = none := by
  intro l
  induction l with
  | nil => intro _; rfl
  | cons e rest ih =>
    intro hall
    unfold findFirstProcess
    rw [hall e (by simp)]
    simp
    exact ih fun x hx => hall x (by simp [hx])

/-- Shape of a successful run of the process-name constructor: resolution
produced a pid, `OpenProcess` produced a nonzero handle, both fields are
set, and exactly one `OpenProcess` call happened. -/
theorem mk_byName_ok_shape (env : Win32Env) (process_name : String) (processFlags : Nat)
    (st : SafeMemoryState) (tr : List (Nat × Nat))
    (h : SafeMemory_mk_byName env process_name processFlags = (Except.ok (), st, tr)) :
    ∃ pid hd, AcquireProcessID env process_name = some pid ∧
      CreateProcessHandle env pid processFlags = some hd ∧
      st = ⟨some hd, some pid⟩ ∧ tr = [(pid, processFlags)] := by
  cases hpid : AcquireProcessID env process_name with
  | none => simp [SafeMemory_mk_byName, hpid] at h
  | some pid =>
    cases hc : CreateProcessHandle env pid processFlags with
    | none => simp [SafeMemory_mk_byName, AcquireProcessHandle, hpid, hc] at h
    | some hd =>
      simp [SafeMemory_mk_byName, AcquireProcessHandle, hpid, hc, initState] at h
      obtain ⟨h1, h2⟩ := h
      exact ⟨pid, hd, rfl, hc, h1.symm, h2.symm⟩

/-- Shape of a successful run of the window-name constructor, mirroring
`mk_byName_ok_shape`. -/
theorem mk_byWindow_ok_shape (env : Win32Env) (window_name : String) (processFlags : Nat)
    (min_window : Bool) (st : SafeMemoryState) (tr : List (Nat × Nat))
    (h : SafeMemory_mk_byWindow env window_name processFlags min_window = (Except.ok (), st, tr)) :
    ∃ pid hd, AcquireProcessIDByWindowName env window_name = some pid ∧
      CreateProcessHandle env pid processFlags = some hd ∧
      st = ⟨some hd, some pid⟩ ∧ tr = [(pid, processFlags)] := by
  cases hpid : AcquireProcessIDByWindowName env window_name with
  | none => simp [SafeMemory_mk_byWindow, hpid] at h
  | some pid =>
    cases hc : CreateProcessHandle env pid processFlags with
    | none => simp [SafeMemory_mk_byWindow, AcquireProcessHandle, hpid, hc] at h
    | some hd =>
      simp [SafeMemory_mk_byWindow, AcquireProcessHandle, hpid, hc, initState] at h
      obtain ⟨h1, h2⟩ := h
      exact ⟨pid, hd, rfl, hc, h1.symm, h2.symm⟩

/-- Shape of a successful run of the process-id constructor, mirroring
`mk_byName_ok_shape`. -/
theorem mk_byPid_ok_shape (env : Win32Env) (process_id : Option Nat) (processFlags : Nat)
    (st : SafeMemoryState) (tr : List (Nat × Nat))
    (h : SafeMemory_mk_byPid env process_id processFlags = (Except.ok (), st, tr)) :
    ∃ pid hd, process_id = some pid ∧
      CreateProcessHandle env pid processFlags = some hd ∧
      st = ⟨some hd, some pid⟩ ∧ tr = [(pid, processFlags)] := by
  cases process_id with
  | none => simp [SafeMemory_mk_byPid, AcquireProcessHandle] at h
  | some pid =>
    cases hc : CreateProcessHandle env pid processFlags with
    | none => simp [SafeMemory_mk_byPid, AcquireProcessHandle, hc] at h
    | some hd =>
      simp [SafeMemory_mk_byPid, AcquireProcessHandle, hc, initState] at h
      obtain ⟨h1, h2⟩ := h
      exact ⟨pid, hd, rfl, hc, h1.symm, h2.symm⟩

/-- A snapshot whose only process is `target.exe` with pid 7: the first
entry in OS enumeration order. -/
def exEnvC1 : Win32Env :=
  { emptyEnv with processes := [⟨"target.exe", 7⟩] }

/-- A module snapshot for pid 5 whose only module is `target.exe` at base
address 4194304 (0x400000): the first module in OS enumeration order. -/
def exEnvC2 : Win32Env :=
  { emptyEnv with modules := fun pid => if pid = 5 then [⟨"target.exe", 4194304⟩] else [] }

/-- A well-constructed object state targeting pid 5 with handle 3. -/
def exStC2 : SafeMemoryState := ⟨some 3, some 5⟩

/-- C1: the claim says `AcquireProcessID` returns the identifier of the
first matching process in OS enumeration order and is absent only when no
process matches. On a snapshot whose first (and only) entry is
`target.exe`/pid 7, the first match in enumeration order is pid 7, yet the
code returns absent: the entry filled by `Process32First` is never
compared, because the name test sits only inside the `while
(Process32Next...)` loop (rh_memory.hpp lines 101-107). -/
theorem AcquireProcessID_misses_first_entry_match :
    AcquireProcessID exEnvC1 "target.exe" = none ∧
    findFirstProcess "target.exe" exEnvC1.processes = some 7 := by
  constructor
  · rfl
  · decide

/-- C2: the claim says `GetModuleBaseAddress` returns the base load address
of the first matching module in OS enumeration order. On a module snapshot
whose first (and only) module is `target.exe` at base 4194304, the first
match in enumeration order has base 4194304, yet the code returns absent:
the module filled by `Module32First` is never compared, because the name
test sits only inside the `while (Module32Next...)` loop (rh_memory.hpp
lines 165-171). -/
theorem GetModuleBaseAddress_misses_first_module_match :
    (GetModuleBaseAddress exEnvC2 exStC2 "target.exe").1 = none ∧
    findFirstModule "target.exe" (exEnvC2.modules 5) = some 4194304 := by
  constructor
  · rfl
  · decide

/-- C3 counterexample: when resolution yields no identifier, the
process-name constructor does not signal the `InvalidProcess` error
("Failed to open a handle to the specified process"): it raises
`std::bad_optional_access` from `process_id.value()` (rh_memory.hpp line
54) before the `InvalidProcess` throw is ever reached. -/
theorem ctor_resolution_failure_not_invalidProcess :
    AcquireProcessID emptyEnv "target.exe" = none ∧
    (SafeMemory_mk_byName emptyEnv "target.exe" SafeMemory_AllAccess).1 =
      Except.error CtorError.badOptionalAccess ∧
    CtorError.badOptionalAccess ≠ CtorError.invalidProcess := by
  refine ⟨rfl, rfl, by decide⟩

/-- C3 (amended): every failing construction path fails by raising an
error, and no object results; the error is `badOptionalAccess` when
resolution yields no identifier in the name/window constructors, and
`InvalidProcess` when a resolved (or directly supplied) identifier exists
but handle acquisition fails, or when the id constructor receives an empty
optional. -/
theorem SafeMemory_construction_failure_errors (env : Win32Env)
    (process_name window_name : String) (processFlags : Nat) (min_window : Bool) (pid : Nat) :
    (AcquireProcessID env process_name = none →
      SafeMemory_mk_byName env process_name processFlags =
        (Except.error CtorError.badOptionalAccess, initState, [])) ∧
    (AcquireProcessID env process_name = some pid →
      CreateProcessHandle env pid processFlags = none →
      (SafeMemory_mk_byName env process_name processFlags).1 =
        Except.error CtorError.invalidProcess) ∧
    (AcquireProcessIDByWindowName env window_name = none →
      SafeMemory_mk_byWindow env window_name processFlags min_window =
        (Except.error CtorError.badOptionalAccess, initState, [])) ∧
    (AcquireProcessIDByWindowName env window_name = some pid →
      CreateProcessHandle env pid processFlags = none →
      (SafeMemory_mk_byWindow env window_name processFlags min_window).1 =
        Except.error CtorError.invalidProcess) ∧
    ((SafeMemory_mk_byPid env none processFlags).1 = Except.error CtorError.invalidProcess) ∧
    (CreateProcessHandle env pid processFlags = none →
      (SafeMemory_mk_byPid env (some pid) processFlags).1 =
        Except.error CtorError.invalidProcess) := by
  refine ⟨?_, ?_, ?_, ?_, ?_, ?_⟩
  · intro h
    simp [SafeMemory_mk_byName, h]
  · intro h hc
    simp [SafeMemory_mk_byName, AcquireProcessHandle, h, hc]
  · intro h
    simp [SafeMemory_mk_byWindow, h]
  · intro h hc
    simp [SafeMemory_mk_byWindow, AcquireProcessHandle, h, hc]
  · rfl
  · intro hc
    simp [SafeMemory_mk_byPid, AcquireProcessHandle, hc]

/-- Witness for `SafeMemory_construction_failure_errors`: in the
all-failing environment, name resolution yields no identifier and the
name constructor raises `badOptionalAccess`, while the id constructor on a
resolvable pid whose `OpenProcess` fails raises `InvalidProcess`. -/
theorem SafeMemory_construction_failure_errors_witness :
    SafeMemory_mk_byName emptyEnv "target.exe" 3 =
      (Except.error CtorError.badOptionalAccess, initState, []) ∧
    (SafeMemory_mk_byPid emptyEnv (some 9) 3).1 = Except.error CtorError.invalidProcess :=
  ⟨(SafeMemory_construction_failure_errors emptyEnv "target.exe" "w" 3 true 9).1 rfl,
   (SafeMemory_construction_failure_errors emptyEnv "target.exe" "w" 3 true 9).2.2.2.2.2 rfl⟩

/-- C8: the window-name constructor ignores its `min_window` parameter
entirely: constructing with `true` and with `false` is the same outcome
(same exception behavior, same stored fields, same OS calls) in every
environment and for every title and access level. -/
theorem min_window_flag_has_no_effect (env : Win32Env) (window_name : String)
    (processFlags : Nat) :
    SafeMemory_mk_byWindow env window_name processFlags true =
    SafeMemory_mk_byWindow env window_name processFlags false := rfl

/-- C9: the guard `handle != INVALID_HANDLE_VALUE || handle != nullptr` of
`HandleDisposer::operator()` is true for every handle value (a value
cannot equal both `-1` and `0`), so `CloseHandle` is invoked
unconditionally, including on `nullptr` and on `INVALID_HANDLE_VALUE`. -/
theorem HandleDisposer_always_closes (handle : Int) :
    HandleDisposer_guard handle = true ∧
    HandleDisposer_invokesCloseHandle handle = true := by
  have hg : HandleDisposer_guard handle = true := by
    unfold HandleDisposer_guard INVALID_HANDLE_VALUE
    by_cases h : handle = -1
    · subst h
      decide
    · simp [h]
  refine ⟨hg, ?_⟩
  unfold HandleDisposer_invokesCloseHandle
  rw [hg]
  rfl

/-- C10: constructing from an empty optional process id fails for every
environment and access level: `AcquireProcessHandle` returns `false` with
an empty `OpenProcess` trace (no OS handle is ever opened), the
constructor raises `InvalidProcess`, and the object state still holds no
handle. -/
theorem SafeMemory_mk_byPid_none_fails (env : Win32Env) (processFlags : Nat) :
    AcquireProcessHandle env initState none processFlags = (false, initState, []) ∧
    SafeMemory_mk_byPid env none processFlags =
      (Except.error CtorError.invalidProcess, initState, []) ∧
    (SafeMemory_mk_byPid env none processFlags).2.1.m_processHandle = none := by
  exact ⟨rfl, rfl, rfl⟩

/-- C4: `SafeReadMemory` returns absent exactly when the stored handle is
absent or the modelled `ReadProcessMemory` call fails, and otherwise
returns the `size`-byte buffer the OS transferred; `SafeWriteMemory`
returns `false` exactly when the stored handle is absent or the modelled
`WriteProcessMemory` call fails, and `true` otherwise. Both are total
functions of their inputs (no exception path exists). -/
theorem SafeMemory_rw_failure_exactness (st : SafeMemoryState) (w : TargetMemory)
    (address_ptr size : Nat) (bytes : List Nat) :
    ((SafeReadMemory st w address_ptr size).1 = none ↔
      st.m_processHandle = none ∨ osReadBytes w address_ptr size = none) ∧
    (∀ bs, (SafeReadMemory st w address_ptr size).1 = some bs →
      osReadBytes w address_ptr size = some bs ∧ bs.length = size) ∧
    ((SafeWriteMemory st w address_ptr bytes).1 = false ↔
      st.m_processHandle = none ∨ osWriteBytes w address_ptr bytes = none) ∧
    ((SafeWriteMemory st w address_ptr bytes).1 = true ↔
      st.m_processHandle ≠ none ∧ osWriteBytes w address_ptr bytes ≠ none) := by
  refine ⟨?_, ?_, ?_, ?_⟩
  · cases hh : st.m_processHandle with
    | none => simp [SafeReadMemory, hh]
    | some hd =>
      cases hr : osReadBytes w address_ptr size with
      | none => simp [SafeReadMemory, hh, hr]
      | some bs => simp [SafeReadMemory, hh, hr]
  · intro bs h
    cases hh : st.m_processHandle with
    | none => simp [SafeReadMemory, hh] at h
    | some hd =>
      cases hr : osReadBytes w address_ptr size with
      | none => simp [SafeReadMemory, hh, hr] at h
      | some bs0 =>
        simp [SafeReadMemory, hh, hr] at h
        subst h
        exact ⟨rfl, osReadBytes_length size w address_ptr bs0 hr⟩
  · cases hh : st.m_processHandle with
    | none => simp [SafeWriteMemory, hh]
    | some hd =>
      cases hwb : osWriteBytes w address_ptr bytes with
      | none => simp [SafeWriteMemory, hh, hwb]
      | some w2 => simp [SafeWriteMemory, hh, hwb]
  · cases hh : st.m_processHandle with
    | none => simp [SafeWriteMemory, hh]
    | some hd =>
      cases hwb : osWriteBytes w address_ptr bytes with
      | none => simp [SafeWriteMemory, hh, hwb]
      | some w2 => simp [SafeWriteMemory, hh, hwb]

/-- A fully accessible, zero-initialized target memory. -/
def exMem : TargetMemory := ⟨fun _ => true, fun _ => true, fun _ => 0⟩

/-- Witness for `SafeMemory_rw_failure_exactness`: on an object holding no
handle, a read of 4 bytes fails and a write of 2 bytes fails. -/
theorem SafeMemory_rw_failure_exactness_witness :
    (SafeReadMemory initState exMem 0 4).1 = none ∧
    (SafeWriteMemory initState exMem 0 [1, 2]).1 = false :=
  ⟨(SafeMemory_rw_failure_exactness initState exMem 0 4 [1, 2]).1.mpr (Or.inl rfl),
   (SafeMemory_rw_failure_exactness initState exMem 0 4 [1, 2]).2.2.1.mpr (Or.inl rfl)⟩

/-- C5: both resolution helpers return absent on every failure: a failed
process snapshot, no process entry matching the name, a failed window
lookup, or a failed owning-process lookup. Both are total functions into
`Option` (they are `noexcept` in the source and no modelled path raises
anything), so no partial identifier can escape. -/
theorem resolution_failures_return_none (env : Win32Env)
    (process_name window_name : String) :
    (env.processSnapshotOk = false → AcquireProcessID env process_name = none) ∧
    ((∀ e ∈ env.processes, (process_name == e.szExeFile) = false) →
      AcquireProcessID env process_name = none) ∧
    (env.findWindowA window_name = 0 →
      AcquireProcessIDByWindowName env window_name = none) ∧
    ((env.getWindowThreadProcessId (env.findWindowA window_name)).1 = 0 →
      AcquireProcessIDByWindowName env window_name = none) := by
  refine ⟨?_, ?_, ?_, ?_⟩
  · intro h
    simp [AcquireProcessID, h]
  · intro h
    unfold AcquireProcessID
    by_cases hs : env.processSnapshotOk = false
    · simp [hs]
    · simp [hs]
      cases hp : env.processes with
      | nil => rfl
      | cons e rest =>
        apply findFirstProcess_eq_none
        intro x hx
        exact h x (by rw [hp]; exact List.mem_cons_of_mem _ hx)
  · intro h
    simp [AcquireProcessIDByWindowName, h]
  · intro h
    unfold AcquireProcessIDByWindowName
    by_cases hw : env.findWindowA window_name = 0
    · simp [hw]
    · simp [hw, h]

/-- An environment whose process snapshot fails, whose only (unreachable)
process entry is `other.exe`, and whose window lookups fail. -/
def exEnvC5 : Win32Env :=
  { emptyEnv with processSnapshotOk := false, processes := [⟨"other.exe", 3⟩] }

/-- Witness for `resolution_failures_return_none`: with no entry named
`target.exe` the name resolution is absent, and with a zero thread id the
window resolution is absent. -/
theorem resolution_failures_return_none_witness :
    AcquireProcessID exEnvC5 "target.exe" = none ∧
    AcquireProcessIDByWindowName exEnvC5 "some window" = none :=
  ⟨(resolution_failures_return_none exEnvC5 "target.exe" "some window").2.1 (by decide),
   (resolution_failures_return_none exEnvC5 "target.exe" "some window").2.2.2 rfl⟩

/-- C6: every successful construction (by name, by window title, or by id)
leaves the object with a present `m_processHandle` and a present
`m_processID`, and every public operation afterwards —
`GetModuleBaseAddress`, `SafeReadMemory`, `SafeWriteMemory`, all `const`
in the source — returns the object state unchanged, so the targeted
process can never change after construction. -/
theorem SafeMemory_target_immutable (env : Win32Env) :
    (∀ process_name processFlags st tr,
      SafeMemory_mk_byName env process_name processFlags = (Except.ok (), st, tr) →
      st.m_processHandle.isSome = true ∧ st.m_processID.isSome = true) ∧
    (∀ window_name processFlags min_window st tr,
      SafeMemory_mk_byWindow env window_name processFlags min_window = (Except.ok (), st, tr) →
      st.m_processHandle.isSome = true ∧ st.m_processID.isSome = true) ∧
    (∀ process_id processFlags st tr,
      SafeMemory_mk_byPid env process_id processFlags = (Except.ok (), st, tr) →
      st.m_processHandle.isSome = true ∧ st.m_processID.isSome = true) ∧
    (∀ st module_name, (GetModuleBaseAddress env st module_name).2 = st) ∧
    (∀ (st : SafeMemoryState) (w : TargetMemory) (address_ptr size : Nat),
      (SafeReadMemory st w address_ptr size).2 = st) ∧
    (∀ (st : SafeMemoryState) (w : TargetMemory) (address_ptr : Nat) (bytes : List Nat),
      (SafeWriteMemory st w address_ptr bytes).2.2 = st) := by
  refine ⟨?_, ?_, ?_, ?_, ?_, ?_⟩
  · intro n f st tr h
    obtain ⟨pid, hd, _, _, hst, _⟩ := mk_byName_ok_shape env n f st tr h
    rw [hst]
    exact ⟨rfl, rfl⟩
  · intro wn f mw st tr h
    obtain ⟨pid, hd, _, _, hst, _⟩ := mk_byWindow_ok_shape env wn f mw st tr h
    rw [hst]
    exact ⟨rfl, rfl⟩
  · intro p f st tr h
    obtain ⟨pid, hd, _, _, hst, _⟩ := mk_byPid_ok_shape env p f st tr h
    rw [hst]
    exact ⟨rfl, rfl⟩
  · intro st module_name
    unfold GetModuleBaseAddress
    cases hpid : st.m_processID with
    | none => rfl
    | some pid =>
      by_cases hm : env.moduleSnapshotOk pid = false
      · simp [hm]
      · simp [hm]
        cases env.modules pid with
        | nil => rfl
        | cons e rest => rfl
  · intro st w address_ptr size
    unfold SafeReadMemory
    cases st.m_processHandle with
    | none => rfl
    | some hd =>
      cases osReadBytes w address_ptr size with
      | none => rfl
      | some bs => rfl
  · intro st w address_ptr bytes
    unfold SafeWriteMemory
    cases st.m_processHandle with
    | none => rfl
    | some hd =>
      cases osWriteBytes w address_ptr bytes with
      | none => rfl
      | some w2 => rfl

/-- An environment with an idle-process-like first snapshot entry, a
matching `target.exe` second entry, and an `OpenProcess` that returns
handle 42. -/
def exEnvC6 : Win32Env :=
  { emptyEnv with
      processes := [⟨"[System Process]", 0⟩, ⟨"target.exe", 7⟩],
      openProcess := fun _ _ => 42 }

/-- Witness for `SafeMemory_target_immutable`: the name constructor
succeeds in `exEnvC6` and the resulting state holds both fields. -/
theorem SafeMemory_target_immutable_witness :
    (⟨some 42, some 7⟩ : SafeMemoryState).m_processHandle.isSome = true ∧
    (⟨some 42, some 7⟩ : SafeMemoryState).m_processID.isSome = true :=
  (SafeMemory_target_immutable exEnvC6).1 "target.exe" SafeMemory_ReadAccess
    ⟨some 42, some 7⟩ [(7, SafeMemory_ReadAccess)] rfl

/-- Fixed-layout encoding of a byte-sized value for the round-trip
witness: one byte, value mod 256. -/
def exEnc (n : Nat) : List Nat := [n % 256]

/-- Decoder matching `exEnc` on single-byte buffers. -/
def exDec : List Nat → Option Nat
  | [b] => some b
  | _ => none

/-- C7: on an object with a valid handle, a successful `SafeWriteMemory`
of the encoded bytes of `v` at an address whose range the instance is
permitted to read, followed by `SafeReadMemory` of `sizeof(T)` bytes at
the same address, returns exactly the written bytes, hence a value equal
to `v` for any encoding whose decoder inverts it (fixed layout, no
padding). -/
theorem SafeMemory_write_read_roundtrip {α : Type} (enc : α → List Nat)
    (dec : List Nat → Option α) (st : SafeMemoryState) (w w2 : TargetMemory)
    (address_ptr : Nat) (v : α) (st2 : SafeMemoryState)
    (hdec : dec (enc v) = some v)
    (hread : ∀ i, i < (enc v).length → w.readable (address_ptr + i) = true)
    (hwrite : SafeWriteMemory st w address_ptr (enc v) = (true, w2, st2)) :
    (SafeReadMemory st w2 address_ptr (enc v).length).1 = some (enc v) ∧
    (SafeReadMemory st w2 address_ptr (enc v).length).1.bind dec = some v := by
  cases hh : st.m_processHandle with
  | none => simp [SafeWriteMemory, hh] at hwrite
  | some hd =>
    cases hwb : osWriteBytes w address_ptr (enc v) with
    | none => simp [SafeWriteMemory, hh, hwb] at hwrite
    | some w3 =>
      simp [SafeWriteMemory, hh, hwb] at hwrite
      obtain ⟨hw23, _⟩ := hwrite
      have hback : osReadBytes w2 address_ptr (enc v).length = some (enc v) := by
        rw [← hw23]
        exact osWriteBytes_readBack (enc v) w w3 address_ptr hwb hread
      have hres : (SafeReadMemory st w2 address_ptr (enc v).length).1 = some (enc v) := by
        simp [SafeReadMemory, hh, hback]
      refine ⟨hres, ?_⟩
      rw [hres]
      simpa using hdec

/-- A constructed object state with handle 1 targeting pid 5, for the
round-trip witness. -/
def exStOk : SafeMemoryState := ⟨some 1, some 5⟩

/-- Witness for `SafeMemory_write_read_roundtrip`: writing the encoding of
42 at address 100 of the fully accessible memory, then reading one byte
back and decoding, returns 42. -/
theorem SafeMemory_write_read_roundtrip_witness :
    (SafeReadMemory exStOk (SafeWriteMemory exStOk exMem 100 (exEnc 42)).2.1 100
      (exEnc 42).length).1.bind exDec = some 42 :=
  (SafeMemory_write_read_roundtrip exEnc exDec exStOk exMem
      (SafeWriteMemory exStOk exMem 100 (exEnc 42)).2.1 100 42
      (SafeWriteMemory exStOk exMem 100 (exEnc 42)).2.2 rfl
      (fun i _ => rfl) rfl).2
